import Mathlib

/-!
Shallow embedding of the webhook / detection / persistence core of the
volo8_test repository (src/apps/lock_detector.py, src/apps/database.py,
src/apps/dingtalk.py, src/apps/webhook_service.py), with theorems settling
the frozen claims about it.

Conventions: Python ints are `Int` (or `Nat` for counts that the code only
increments), Python floats are `Rat`, Python strings are `String`, Python
lists are `List`, absent/None is `Option`, a caught exception is `Except`.
External collaborators (the YOLO classifier, the network, the renderer,
the clock) enter as explicit inputs, exactly where the source calls them.
-/

namespace Volo8

/-! ## apps/lock_detector.py — LockDetectionResult and LockDetector -/

/-- Bounding box dict passed to `LockDetectionResult.add_lock`
(keys xmin/ymin/xmax/ymax in the source). -/
structure BBox where
  xmin : Int
  ymin : Int
  xmax : Int
  ymax : Int
deriving Repr, DecidableEq

/-- One entry of `lock_details` as built inside `add_lock`. -/
structure LockDetail where
  lock_type : String
  is_locked : Bool
  confidence : Rat
  bbox : BBox
  position_x : Int
  position_y : Int
  width : Int
  height : Int
deriving Repr, DecidableEq

/-- `LockDetectionResult.__init__`: is_safe=True, counts 0, empty details,
confidence 0.0, detection_time = now. -/
structure LockDetectionResult where
  is_safe : Bool := true
  total_locks : Nat := 0
  unlocked_locks : Nat := 0
  locked_locks : Nat := 0
  lock_details : List LockDetail := []
  confidence_score : Rat := 0
  detection_time : Int := 0
deriving Repr, DecidableEq

/-- A fresh `LockDetectionResult()` whose `datetime.now()` read is `now`. -/
def LockDetectionResult.init (now : Int) : LockDetectionResult :=
  { detection_time := now }

/-- `LockDetectionResult.add_lock` (src/apps/lock_detector.py lines 28-51):
append the detail, bump total, bump locked or unlocked, clear is_safe when
the new item is not locked, keep the max confidence. -/
def LockDetectionResult.add_lock (r : LockDetectionResult) (lock_type : String)
    (is_locked : Bool) (confidence : Rat) (bbox : BBox) : LockDetectionResult :=
  let lock_detail : LockDetail :=
    { lock_type := lock_type
      is_locked := is_locked
      confidence := confidence
      bbox := bbox
      position_x := bbox.xmin
      position_y := bbox.ymin
      width := bbox.xmax - bbox.xmin
      height := bbox.ymax - bbox.ymin }
  { r with
    lock_details := r.lock_details ++ [lock_detail]
    total_locks := r.total_locks + 1
    locked_locks := if is_locked then r.locked_locks + 1 else r.locked_locks
    unlocked_locks := if is_locked then r.unlocked_locks else r.unlocked_locks + 1
    is_safe := if is_locked then r.is_safe else false
    confidence_score := max r.confidence_score confidence }

/-- The arguments of one `add_lock` call. -/
structure AddLockCall where
  lock_type : String
  is_locked : Bool
  confidence : Rat
  bbox : BBox
deriving Repr, DecidableEq

/-- The outcome of a finite sequence of `add_lock` calls on a fresh result. -/
def runAddLocks (now : Int) (calls : List AddLockCall) : LockDetectionResult :=
  calls.foldl (fun r c => r.add_lock c.lock_type c.is_locked c.confidence c.bbox)
    (LockDetectionResult.init now)

/-- `self.lock_classes` of `LockDetector.__init__`. -/
def lock_classes (k : Nat) : Option String :=
  match k with
  | 0 => some "labels"
  | 1 => some "locked"
  | 2 => some "unlocked"
  | _ => none

/-- `LockDetector.detect_locks` (src/apps/lock_detector.py lines 92-136).
The classifier is an external collaborator: its outcome enters as
`pred`, where `.error e` is a raised exception (the method's except branch
returns a fresh empty result), `.ok none` is an empty prediction list or a
prediction without probabilities, and `.ok (some (top1, conf))` is the
top-1 class index with its confidence. `w`/`h` are `image.size`. -/
def LockDetector.detect_locks (pred : Except String (Option (Nat × Rat)))
    (w h : Int) (now : Int) : LockDetectionResult :=
  match pred with
  | .error _ => LockDetectionResult.init now
  | .ok none => LockDetectionResult.init now
  | .ok (some (top1_class, top1_conf)) =>
      let lock_status := (lock_classes top1_class).getD "unknown"
      let is_locked := lock_status == "locked"
      let bbox : BBox := { xmin := 0, ymin := 0, xmax := w, ymax := h }
      (LockDetectionResult.init now).add_lock lock_status is_locked top1_conf bbox

/-! ## apps/database.py — DetectionResult and DatabaseManager

The store is SQLite.  `detection_results` has `id INTEGER PRIMARY KEY
AUTOINCREMENT` and `image_hash TEXT UNIQUE`; `lock_details` has
`id INTEGER PRIMARY KEY AUTOINCREMENT`.  The model keeps each table as a
row list together with its AUTOINCREMENT sequence (the largest rowid ever
assigned, as recorded in sqlite_sequence): a plain INSERT assigns rowid
seq+1, and `INSERT OR REPLACE` first deletes every row that conflicts on a
UNIQUE column and then inserts a brand-new row under a fresh rowid. -/

/-- The `DetectionResult` dataclass (src/apps/database.py lines 9-27);
`detection_time` is a timestamp read from the clock. -/
structure DetectionResult where
  id : Option Nat := none
  image_url : String := ""
  image_hash : String := ""
  detection_time : Int := 0
  locks_detected : Nat := 0
  unlocked_locks : Nat := 0
  lock_positions : String := ""
  confidence_score : Rat := 0
  dingtalk_message_id : String := ""
  user_id : String := ""
  group_id : String := ""
  is_safe : Bool := true
deriving Repr, DecidableEq

/-- A stored row of the `detection_results` table. -/
structure DetectionRow where
  id : Nat
  image_url : String
  image_hash : String
  detection_time : Int
  locks_detected : Nat
  unlocked_locks : Nat
  lock_positions : String
  confidence_score : Rat
  dingtalk_message_id : String
  user_id : String
  group_id : String
  is_safe : Bool
deriving Repr, DecidableEq

/-- A stored row of the `lock_details` table. -/
structure LockDetailRow where
  id : Nat
  detection_id : Nat
  lock_type : String
  is_locked : Bool
  confidence : Rat
  position_x : Int
  position_y : Int
  width : Int
  height : Int
deriving Repr, DecidableEq

/-- The SQLite file behind `DatabaseManager` (the `training_records` table
is out of the claims' scope and omitted). -/
structure Database where
  detection_results : List DetectionRow := []
  detection_seq : Nat := 0
  lock_details : List LockDetailRow := []
  lock_details_seq : Nat := 0
deriving Repr, DecidableEq

/-- The row the INSERT of `save_detection_result` writes: the eleven bound
columns come from the dataclass, the rowid is the fresh AUTOINCREMENT id. -/
def DetectionRow.ofResult (id : Nat) (result : DetectionResult) : DetectionRow :=
  { id := id
    image_url := result.image_url
    image_hash := result.image_hash
    detection_time := result.detection_time
    locks_detected := result.locks_detected
    unlocked_locks := result.unlocked_locks
    lock_positions := result.lock_positions
    confidence_score := result.confidence_score
    dingtalk_message_id := result.dingtalk_message_id
    user_id := result.user_id
    group_id := result.group_id
    is_safe := result.is_safe }

/-- `DatabaseManager.save_detection_result` (src/apps/database.py lines
100-126): `INSERT OR REPLACE INTO detection_results (…) VALUES (…)` —
SQLite deletes any row sharing the UNIQUE `image_hash`, inserts a new row
under the next AUTOINCREMENT rowid, and `cursor.lastrowid` (the returned
id) is that new rowid. -/
def DatabaseManager.save_detection_result (db : Database)
    (result : DetectionResult) : Database × Nat :=
  let result_id := db.detection_seq + 1
  let kept := db.detection_results.filter
    (fun row => row.image_hash != result.image_hash)
  ({ db with
      detection_results := kept ++ [DetectionRow.ofResult result_id result]
      detection_seq := result_id },
   result_id)

/-- `DatabaseManager.save_lock_details` (lines 128-150): one plain INSERT
per detail, in list order, each under a fresh AUTOINCREMENT id. -/
def DatabaseManager.save_lock_details (db : Database) (detection_id : Nat)
    (details : List LockDetail) : Database :=
  details.foldl
    (fun d detail =>
      let newId := d.lock_details_seq + 1
      { d with
        lock_details := d.lock_details ++
          [{ id := newId
             detection_id := detection_id
             lock_type := detail.lock_type
             is_locked := detail.is_locked
             confidence := detail.confidence
             position_x := detail.position_x
             position_y := detail.position_y
             width := detail.width
             height := detail.height }]
        lock_details_seq := newId })
    db

/-- `DatabaseManager.get_detection_by_id` (lines 174-190):
`SELECT * FROM detection_results WHERE id = ?`, `None` when no row matches
(the JSON re-parse of `lock_positions` does not change the row model). -/
def DatabaseManager.get_detection_by_id (db : Database)
    (detection_id : Nat) : Option DetectionRow :=
  db.detection_results.find? (fun row => row.id == detection_id)

/-- The dict `get_statistics` returns. -/
structure Statistics where
  total_detections : Nat
  unsafe_detections : Nat
  total_locks : Nat
  total_unlocked : Nat
  today_detections : Nat
  safety_rate : Rat
deriving Repr, DecidableEq

/-- `DatabaseManager.get_statistics` (lines 239-274), computed live over
the stored rows: COUNT(*), COUNT where is_safe = FALSE, the two SUMs, the
COUNT of rows whose detection day is today (`dayOf` stands for SQLite's
`DATE`, `today` for `DATE of now`), and the safety-rate expression
`(total - unsafe) / total * 100 if total > 0 else 100`. -/
def DatabaseManager.get_statistics (db : Database) (dayOf : Int → Int)
    (today : Int) : Statistics :=
  let total_detections := db.detection_results.length
  let unsafe_detections :=
    (db.detection_results.filter (fun row => row.is_safe == false)).length
  let total_locks := (db.detection_results.map (·.locks_detected)).sum
  let total_unlocked := (db.detection_results.map (·.unlocked_locks)).sum
  let today_detections :=
    (db.detection_results.filter (fun row => dayOf row.detection_time == today)).length
  { total_detections := total_detections
    unsafe_detections := unsafe_detections
    total_locks := total_locks
    total_unlocked := total_unlocked
    today_detections := today_detections
    safety_rate :=
      if 0 < total_detections then
        ((total_detections : Rat) - (unsafe_detections : Rat))
          / (total_detections : Rat) * 100
      else 100 }

/-! ## apps/dingtalk.py — message model, parsing, mention check, verifier -/

/-- The `Content` pydantic model (field `content`, default empty). -/
structure Content where
  content : String := ""
deriving Repr, DecidableEq

/-- A JSON object is modelled as a record of optional members; an entry in
`image_size` is an open dict of ints. -/
abbrev SizeDict := List (String × Int)

/-- The `Images` pydantic model. -/
structure Images where
  download_code : List String := []
  image_url : List String := []
  image_size : List SizeDict := []
deriving Repr, DecidableEq

/-- The `AtUsers` pydantic model. -/
structure AtUsers where
  dingtalk_id : List String := []
  staff_id : List String := []
deriving Repr, DecidableEq

/-- The `Text` pydantic model. -/
structure Text where
  content : String := ""
deriving Repr, DecidableEq

/-- `DingTalkMessage.__init__` defaults (src/apps/dingtalk.py lines 16-33). -/
structure DingTalkMessage where
  chatbot_user_id : String := ""
  conversation_type : String := ""
  msg_id : String := ""
  create_at : String := ""
  conversation_title : String := ""
  sender_id : String := ""
  sender_nick : String := ""
  session_webhook : String := ""
  session_webhook_expired_time : Int := 0
  content : Content := {}
  images : Images := {}
  msg_type : String := ""
  at_users : AtUsers := {}
  text : Text := {}
deriving Repr, DecidableEq

/-- The inner dict under the payload's `content` key. -/
structure ContentPayload where
  content : Option String := none
deriving Repr, DecidableEq

/-- The inner dict under the payload's `images` key. -/
structure ImagesPayload where
  downloadCode : Option (List String) := none
  imageUrl : Option (List String) := none
  imageSize : Option (List SizeDict) := none
deriving Repr, DecidableEq

/-- The inner dict under the payload's `atUsers` key. -/
structure AtUsersPayload where
  dingtalkId : Option (List String) := none
  staffId : Option (List String) := none
deriving Repr, DecidableEq

/-- The inner dict under the payload's `text` key. -/
structure TextPayload where
  content : Option String := none
deriving Repr, DecidableEq

/-- An inbound callback body: each key the parser reads, present or
absent. -/
structure Payload where
  chatbotUserId : Option String := none
  conversationType : Option String := none
  msgId : Option String := none
  createAt : Option String := none
  conversationTitle : Option String := none
  senderId : Option String := none
  senderNick : Option String := none
  sessionWebhook : Option String := none
  sessionWebhookExpiredTime : Option Int := none
  msgType : Option String := none
  content : Option ContentPayload := none
  images : Option ImagesPayload := none
  atUsers : Option AtUsersPayload := none
  text : Option TextPayload := none
deriving Repr, DecidableEq

/-- `Images.from_dict` (lines 73-79). -/
def Images.from_dict (data : ImagesPayload) : Images :=
  { download_code := data.downloadCode.getD []
    image_url := data.imageUrl.getD []
    image_size := data.imageSize.getD [] }

/-- `AtUsers.from_dict` (lines 87-92). -/
def AtUsers.from_dict (data : AtUsersPayload) : AtUsers :=
  { dingtalk_id := data.dingtalkId.getD []
    staff_id := data.staffId.getD [] }

/-- `Text.from_dict` (lines 99-103). -/
def Text.from_dict (data : TextPayload) : Text :=
  { content := data.content.getD "" }

/-- `DingTalkMessage.from_dict` (lines 35-59): every scalar member defaults
when absent; each nested member is handed to its class's `from_dict` only
when the key is present.  The `content` branch executes
`Content.from_dict(data['content'])`, but the `Content` class — unlike
`Images`, `AtUsers` and `Text` — defines no `from_dict`, so whenever the
`content` key is present the attribute lookup raises `AttributeError`
(modelled as the error case). -/
def DingTalkMessage.from_dict (data : Payload) : Except String DingTalkMessage :=
  let msg : DingTalkMessage :=
    { chatbot_user_id := data.chatbotUserId.getD ""
      conversation_type := data.conversationType.getD ""
      msg_id := data.msgId.getD ""
      create_at := data.createAt.getD ""
      conversation_title := data.conversationTitle.getD ""
      sender_id := data.senderId.getD ""
      sender_nick := data.senderNick.getD ""
      session_webhook := data.sessionWebhook.getD ""
      session_webhook_expired_time := data.sessionWebhookExpiredTime.getD 0
      msg_type := data.msgType.getD "" }
  match data.content with
  | some _ => .error "AttributeError: type object Content has no attribute from_dict"
  | none =>
    let msg := match data.images with
      | some i => { msg with images := Images.from_dict i }
      | none => msg
    let msg := match data.atUsers with
      | some a => { msg with at_users := AtUsers.from_dict a }
      | none => msg
    let msg := match data.text with
      | some t => { msg with text := Text.from_dict t }
      | none => msg
    .ok msg

/-- `DingTalkCallbackHandler.verify_signature` (lines 115-138): HMAC-SHA256
over the UTF-8 bytes of the string timestamp + newline + sign, keyed by the
shared secret, base64-encoded and compared for equality with `sign`; the
method catches every exception and returns False.  The crypto primitives
are the external hashlib/hmac/base64 libraries, entering as the inputs
`hmac_sha256` (key and message to the 32-byte digest) and `b64encode`. -/
def DingTalkCallbackHandler.verify_signature
    (hmac_sha256 : String → String → List Nat) (b64encode : List Nat → String)
    (app_secret timestamp sign : String) : Bool :=
  let string_to_sign := timestamp ++ "\n" ++ sign
  let signature := b64encode (hmac_sha256 app_secret string_to_sign)
  signature == sign

/-- `DingTalkCallbackHandler.is_mentioned_to_bot` (lines 148-162): true when
the lowered text contains the at-sign or the bot keyword, else when the
app key appears among the at-ed dingtalk ids. -/
def DingTalkCallbackHandler.is_mentioned_to_bot (app_key : String)
    (msg : DingTalkMessage) : Bool :=
  if msg.text.content ≠ "" ∧
      (let t := msg.text.content.toLower
       t.contains '@' ∨ 2 ≤ (t.splitOn "机器人").length) then
    true
  else
    msg.at_users.dingtalk_id.contains app_key

/-! ## apps/webhook_service.py — DingTalkWebhookService

`_process_message` is sequenced over network and store effects.  The model
records the side effects as a trace of actions, in program order; the
outcome of each external call (image download, classifier, store write,
renderer) enters as an input, exactly at the call site. -/

/-- The downloaded image as the pipeline consumes it: its PIL size and the
MD5 fingerprint `_calculate_image_hash` derives from its bytes. -/
structure ImageData where
  width : Int
  height : Int
  hash : String
deriving Repr, DecidableEq

/-- Stand-in for `json.dumps(detection_result.lock_details)`: a
deterministic serialization of the detail list (claims never inspect the
concrete text, only that the stored string is the one serialized from the
record that was saved). -/
def json_dumps (details : List LockDetail) : String :=
  toString (repr details)

/-- The `DetectionResult` row `LockDetector.save_detection_result` builds
(src/apps/lock_detector.py lines 168-181): empty image_url, the image
fingerprint, and the outcome's fields. -/
def detection_record_of (image_hash : String) (r : LockDetectionResult)
    (message_id user_id group_id : String) : DetectionResult :=
  { image_url := ""
    image_hash := image_hash
    detection_time := r.detection_time
    locks_detected := r.total_locks
    unlocked_locks := r.unlocked_locks
    lock_positions := json_dumps r.lock_details
    confidence_score := r.confidence_score
    dingtalk_message_id := message_id
    user_id := user_id
    group_id := group_id
    is_safe := r.is_safe }

/-- `LockDetector.save_detection_result` (src/apps/lock_detector.py lines
161-194): build the record, upsert it, insert the detail rows, return the
new id; every exception in that block is caught, logged, and -1 is
returned instead — nothing escapes to the caller.  `store_ok = false` is
the except branch (the store raised). -/
def LockDetector.save_detection_result (db : Database) (store_ok : Bool)
    (image_hash : String) (detection_result : LockDetectionResult)
    (message_id user_id group_id : String) : Database × Int :=
  if store_ok then
    let record := detection_record_of image_hash detection_result
      message_id user_id group_id
    let saved := DatabaseManager.save_detection_result db record
    let db2 := DatabaseManager.save_lock_details saved.1 saved.2
      detection_result.lock_details
    (db2, (saved.2 : Int))
  else
    (db, -1)

/-- One observable side effect of the webhook pipeline.  The four send
actions carry everything the corresponding markdown template embeds, so
two equal send actions render the same reply. -/
inductive Action where
  | updateWebhook (url : String) (expiredTime : Int)
  | downloadImage (url : String) (downloadCode : String)
  | dbWrite (record : DetectionResult)
  | sendNoImageReply (senderNick : String)
  | sendDownloadErrorReply (senderNick : String)
  | sendDetectionReply (senderNick : String) (result : LockDetectionResult)
      (renderedImage : String)
deriving Repr, DecidableEq

/-- Whether an action posts a chat reply. -/
def Action.isSend : Action → Bool
  | .sendNoImageReply _ => true
  | .sendDownloadErrorReply _ => true
  | .sendDetectionReply _ _ _ => true
  | _ => false

/-- The outcomes of the pipeline's external calls, read where the source
makes them: `download` is what `download_image` produced (None on any
download failure), `classifier` is the YOLO predict outcome fed to
`detect_locks`, `store_ok` is whether the two store writes succeed,
`render` is the base64 text `_image_to_base64` makes of the visualized
image, and `now` is the clock. -/
structure StepOutcomes where
  download : Option ImageData := none
  classifier : Except String (Option (Nat × Rat)) := .ok none
  store_ok : Bool := true
  render : LockDetectionResult → String := fun _ => ""
  now : Int := 0

/-- `DingTalkWebhookService._process_message` (src/apps/webhook_service.py
lines 60-110) as its trace of actions: update the session webhook when the
message carries a live one; with no image url send the no-image guidance
(lines 112-134) and stop; else download the first image (with the first
download code when present), on failure send the download-error reply and
stop; else classify, save (a store failure is absorbed inside
`save_detection_result` and the returned -1 is never used), visualize, and
send the detection-result markdown. -/
def DingTalkWebhookService.process_message (msg : DingTalkMessage)
    (steps : StepOutcomes) : List Action :=
  let upd :=
    if msg.session_webhook ≠ "" ∧ 0 < msg.session_webhook_expired_time then
      [Action.updateWebhook msg.session_webhook msg.session_webhook_expired_time]
    else []
  match msg.images.image_url with
  | [] => upd ++ [Action.sendNoImageReply msg.sender_nick]
  | image_url :: _ =>
    let download_code := match msg.images.download_code with
      | [] => ""
      | c :: _ => c
    let dl := Action.downloadImage image_url download_code
    match steps.download with
    | none => upd ++ [dl, Action.sendDownloadErrorReply msg.sender_nick]
    | some image =>
      let detection_result :=
        LockDetector.detect_locks steps.classifier image.width image.height steps.now
      let record := detection_record_of image.hash detection_result
        msg.msg_id msg.sender_id msg.conversation_title
      let persisted := if steps.store_ok then [Action.dbWrite record] else []
      upd ++ [dl] ++ persisted ++
        [Action.sendDetectionReply msg.sender_nick detection_result
          (steps.render detection_result)]

/-- What `handle_callback` hands back to the HTTP layer. -/
inductive CallbackOutcome where
  | httpError (status : Nat) (detail : String)
  | ignored
  | processed (actions : List Action)
deriving Repr, DecidableEq

/-- The chat replies a callback outcome dispatched. -/
def CallbackOutcome.replies : CallbackOutcome → List Action
  | .processed actions => actions.filter Action.isSend
  | _ => []

/-- `DingTalkWebhookService.handle_callback` (src/apps/webhook_service.py
lines 28-58).  `signature_valid` is what `verify_signature` returned for
the request's timestamp/sign headers.  On verification failure the method
raises HTTPException(401, 签名验证失败) — but its own blanket
`except Exception` catches that very exception and re-raises
HTTPException(500, str(e)), so the caller receives status 500; the same
wrapping turns the parser's HTTPException(400, 消息格式错误) into a 500.
A message that does not mention the bot is acknowledged and ignored.
Otherwise the message is processed. -/
def DingTalkWebhookService.handle_callback (app_key : String)
    (signature_valid : Bool) (payload : Payload)
    (steps : StepOutcomes) : CallbackOutcome :=
  if !signature_valid then
    .httpError 500 "401: 签名验证失败"
  else
    match DingTalkMessage.from_dict payload with
    | .error _ => .httpError 500 "400: 消息格式错误"
    | .ok message =>
      if !(DingTalkCallbackHandler.is_mentioned_to_bot app_key message) then
        .ignored
      else
        .processed (DingTalkWebhookService.process_message message steps)

/-! ## Theorems -/

/-- C3 helper: one `add_lock` call preserves the counting invariant. -/
theorem add_lock_preserves_inv (r : LockDetectionResult) (c : AddLockCall)
    (h1 : r.locked_locks + r.unlocked_locks = r.total_locks)
    (h2 : r.is_safe = decide (r.unlocked_locks = 0)) :
    ((r.add_lock c.lock_type c.is_locked c.confidence c.bbox).locked_locks
        + (r.add_lock c.lock_type c.is_locked c.confidence c.bbox).unlocked_locks
      = (r.add_lock c.lock_type c.is_locked c.confidence c.bbox).total_locks)
    ∧ (r.add_lock c.lock_type c.is_locked c.confidence c.bbox).is_safe
      = decide ((r.add_lock c.lock_type c.is_locked c.confidence c.bbox).unlocked_locks = 0) := by
  cases hc : c.is_locked <;>
    simp [LockDetectionResult.add_lock, hc, h2] <;> omega

/-- C3 helper: the invariant survives any remaining sequence of calls. -/
theorem foldl_add_lock_inv (calls : List AddLockCall) :
    ∀ r : LockDetectionResult,
      r.locked_locks + r.unlocked_locks = r.total_locks →
      r.is_safe = decide (r.unlocked_locks = 0) →
      ((calls.foldl
            (fun r c => r.add_lock c.lock_type c.is_locked c.confidence c.bbox)
            r).locked_locks
          + (calls.foldl
            (fun r c => r.add_lock c.lock_type c.is_locked c.confidence c.bbox)
            r).unlocked_locks
        = (calls.foldl
            (fun r c => r.add_lock c.lock_type c.is_locked c.confidence c.bbox)
            r).total_locks)
      ∧ (calls.foldl
            (fun r c => r.add_lock c.lock_type c.is_locked c.confidence c.bbox)
            r).is_safe
        = decide ((calls.foldl
            (fun r c => r.add_lock c.lock_type c.is_locked c.confidence c.bbox)
            r).unlocked_locks = 0) := by
  induction calls with
  | nil => intro r h1 h2; exact ⟨h1, h2⟩
  | cons c rest ih =>
      intro r h1 h2
      have hstep := add_lock_preserves_inv r c h1 h2
      exact ih _ hstep.1 hstep.2

/-- C3 (confirmed): every `LockDetectionResult` reachable by a finite
sequence of `add_lock` calls from a fresh result satisfies
locked + unlocked = total, and is_safe holds exactly when unlocked = 0. -/
theorem reachable_outcome_invariant (now : Int) (calls : List AddLockCall) :
    ((runAddLocks now calls).locked_locks + (runAddLocks now calls).unlocked_locks
      = (runAddLocks now calls).total_locks)
    ∧ (runAddLocks now calls).is_safe
      = decide ((runAddLocks now calls).unlocked_locks = 0) :=
  foldl_add_lock_inv calls (LockDetectionResult.init now) rfl rfl

/-- C4 (counterexample): with the classifier reporting top-1 class 0
("labels", a label that is neither "locked" nor "unlocked"), the item is
counted in total and in the detail list, but — contrary to the claim that
it contributes to neither count — it is counted as unlocked. -/
theorem unknown_label_counted_unlocked_cex :
    let r := LockDetector.detect_locks (Except.ok (some (0, (9 : Rat) / 10))) 100 50 0
    r.total_locks = 1 ∧ r.lock_details.length = 1
      ∧ r.lock_details.map (fun d => d.lock_type) = ["labels"]
      ∧ r.locked_locks = 0 ∧ ¬ (r.unlocked_locks = 0) := by
  refine ⟨rfl, rfl, rfl, rfl, ?_⟩
  decide

/-- C4 (amended): an item whose label is neither "locked" nor "unlocked"
(class 0, "labels", or any class index outside the table, "unknown") is
counted in total and appears in the detail list, is not marked is_locked,
and is counted in the unlocked count (clearing is_safe) — not in the
locked count; only a "locked" item (class 1) is marked is_locked and
counted as locked. -/
theorem unknown_label_counted_unlocked (k : Nat) (conf : Rat) (w h now : Int) :
    (let r := LockDetector.detect_locks (Except.ok (some (0, conf))) w h now
     r.total_locks = 1 ∧ r.lock_details.length = 1
       ∧ r.lock_details.map (fun d => d.lock_type) = ["labels"]
       ∧ r.lock_details.map (fun d => d.is_locked) = [false]
       ∧ r.locked_locks = 0 ∧ r.unlocked_locks = 1 ∧ r.is_safe = false)
    ∧ (let r := LockDetector.detect_locks (Except.ok (some (k + 3, conf))) w h now
       r.total_locks = 1 ∧ r.lock_details.length = 1
         ∧ r.lock_details.map (fun d => d.lock_type) = ["unknown"]
         ∧ r.lock_details.map (fun d => d.is_locked) = [false]
         ∧ r.locked_locks = 0 ∧ r.unlocked_locks = 1 ∧ r.is_safe = false)
    ∧ (let r := LockDetector.detect_locks (Except.ok (some (1, conf))) w h now
       r.lock_details.map (fun d => d.is_locked) = [true]
         ∧ r.locked_locks = 1 ∧ r.unlocked_locks = 0 ∧ r.is_safe = true) := by
  refine ⟨?_, ?_, ?_⟩ <;>
    simp [LockDetector.detect_locks, LockDetectionResult.add_lock,
      LockDetectionResult.init, lock_classes]

/-- C10 (confirmed): `detect_locks` yields at most one item (the top-1
class); any item's bounding box spans the whole image (x = 0, y = 0,
width = w, height = h); and when classification raises, the result is the
fresh empty outcome (total = 0, is_safe = true) instead of an escaping
exception. -/
theorem detect_locks_top1_full_frame (pred : Except String (Option (Nat × Rat)))
    (c : Nat) (conf : Rat) (e : String) (w h now : Int) :
    (LockDetector.detect_locks pred w h now).lock_details.length ≤ 1
    ∧ ((LockDetector.detect_locks pred w h now).lock_details.map
          (fun d => (d.position_x, d.position_y, d.width, d.height)) = []
        ∨ (LockDetector.detect_locks pred w h now).lock_details.map
          (fun d => (d.position_x, d.position_y, d.width, d.height)) = [(0, 0, w, h)])
    ∧ LockDetector.detect_locks (Except.error e) w h now = LockDetectionResult.init now
    ∧ (LockDetector.detect_locks (Except.error e) w h now).total_locks = 0
    ∧ (LockDetector.detect_locks (Except.error e) w h now).is_safe = true
    ∧ (LockDetector.detect_locks (Except.ok (some (c, conf))) w h now).lock_details.map
        (fun d => d.lock_type) = [(lock_classes c).getD "unknown"] := by
  refine ⟨?_, ?_, rfl, rfl, rfl, ?_⟩
  · match pred with
    | .error _ => simp [LockDetector.detect_locks, LockDetectionResult.init]
    | .ok none => simp [LockDetector.detect_locks, LockDetectionResult.init]
    | .ok (some (c0, conf0)) =>
        simp [LockDetector.detect_locks, LockDetectionResult.add_lock,
          LockDetectionResult.init]
  · match pred with
    | .error _ => left; rfl
    | .ok none => left; rfl
    | .ok (some (c0, conf0)) =>
        right
        simp [LockDetector.detect_locks, LockDetectionResult.add_lock,
          LockDetectionResult.init]
  · simp [LockDetector.detect_locks, LockDetectionResult.add_lock,
      LockDetectionResult.init]

/-- C2 (counterexample): saving two records with the same fingerprint into
an empty store — the second `save_detection_result` returns id 2, not the
id 1 the first call returned, because SQLite's INSERT OR REPLACE deletes
the conflicting row and inserts a brand-new row under a fresh
AUTOINCREMENT rowid. -/
theorem save_detection_id_not_stable_cex :
    let r1 : DetectionResult := { image_hash := "fp", user_id := "u1" }
    let r2 : DetectionResult := { image_hash := "fp", user_id := "u2" }
    let s1 := DatabaseManager.save_detection_result {} r1
    let s2 := DatabaseManager.save_detection_result s1.1 r2
    s1.2 = 1 ∧ s2.2 = 2 ∧ ¬ (s2.2 = s1.2) := by
  exact ⟨rfl, rfl, by decide⟩

/-- C2 (amended): `save_detection_result` is an upsert keyed by the image
fingerprint — after saving a second record with the first one's
fingerprint, exactly one row with that fingerprint remains and it holds
the second record's field values — but the surrogate id is not stable: the
second call returns a fresh rowid (first id + 1), not the first call's id.
The last conjuncts run the two saves on the empty store, where
`get_detection_by_id` at the second returned id yields the second
record's values. -/
theorem save_detection_upsert_fresh_id (db : Database) (r1 r2 : DetectionResult) :
    (let r2s := { r2 with image_hash := r1.image_hash }
     let s1 := DatabaseManager.save_detection_result db r1
     let s2 := DatabaseManager.save_detection_result s1.1 r2s
     s1.2 = db.detection_seq + 1
       ∧ s2.2 = db.detection_seq + 2
       ∧ ¬ (s2.2 = s1.2)
       ∧ s2.1.detection_results.filter
           (fun row => row.image_hash == r1.image_hash)
         = [DetectionRow.ofResult s2.2 r2s])
    ∧ (let r2s := { r2 with image_hash := r1.image_hash }
       let t1 := DatabaseManager.save_detection_result {} r1
       let t2 := DatabaseManager.save_detection_result t1.1 r2s
       DatabaseManager.get_detection_by_id t2.1 t2.2
         = some (DetectionRow.ofResult 2 r2s)) := by
  constructor
  · refine ⟨rfl, rfl, by show ¬ (db.detection_seq + 2 = db.detection_seq + 1); omega, ?_⟩
    simp only [DatabaseManager.save_detection_result, List.filter_append]
    rw [List.filter_filter]
    have hrow : ((DetectionRow.ofResult (db.detection_seq + 1) r1).image_hash
        != r1.image_hash) = false := by
      simp [DetectionRow.ofResult]
    have h1 : ∀ l : List DetectionRow,
        (l.filter fun row =>
          (row.image_hash == r1.image_hash) && (row.image_hash != r1.image_hash)) = [] := by
      intro l
      induction l with
      | nil => rfl
      | cons a t ih =>
          by_cases ha : a.image_hash = r1.image_hash <;>
            simp [List.filter_cons, ha, ih]
    simp [List.filter_cons, hrow, h1, DetectionRow.ofResult]
  · simp [DatabaseManager.save_detection_result,
      DatabaseManager.get_detection_by_id, DetectionRow.ofResult]

/-- C5 (code evaluated at the failing input): for every payload and every
pipeline state, a callback whose signature header fails verification is
answered with HTTP status 500 (the blanket `except Exception` inside
`handle_callback` swallows the HTTPException(401) it just raised and
re-raises it as a 500 whose detail wraps the original), and no chat reply
of any kind is dispatched. -/
theorem bad_signature_http500_no_reply (app_key : String) (payload : Payload)
    (steps : StepOutcomes) :
    DingTalkWebhookService.handle_callback app_key false payload steps
      = CallbackOutcome.httpError 500 "401: 签名验证失败"
    ∧ (DingTalkWebhookService.handle_callback app_key false payload steps).replies
      = [] :=
  ⟨rfl, rfl⟩

/-- C6 (confirmed): a store-write failure is absorbed —
`LockDetector.save_detection_result` returns (db, -1) instead of raising —
and the chat replies `_process_message` dispatches are identical whether
the store write succeeds or fails; in particular, with the download
succeeded, the detection-result reply (same outcome, same rendered image)
is still sent when the store write fails. -/
theorem store_failure_never_blocks_reply (msg : DingTalkMessage)
    (steps : StepOutcomes) (url : String) (rest : List String)
    (image : ImageData) :
    ((DingTalkWebhookService.process_message msg
          { steps with store_ok := false }).filter Action.isSend
      = (DingTalkWebhookService.process_message msg
          { steps with store_ok := true }).filter Action.isSend)
    ∧ (∀ (db : Database) (image_hash : String) (r : LockDetectionResult)
          (mid uid gid : String),
        LockDetector.save_detection_result db false image_hash r mid uid gid
          = (db, -1))
    ∧ (let msgi := { msg with images := { msg.images with image_url := url :: rest } }
       let stepsf := { steps with download := some image, store_ok := false }
       let dr := LockDetector.detect_locks steps.classifier image.width
         image.height steps.now
       Action.sendDetectionReply msgi.sender_nick dr (steps.render dr)
         ∈ DingTalkWebhookService.process_message msgi stepsf) := by
  refine ⟨?_, fun db image_hash r mid uid gid => rfl, ?_⟩
  · unfold DingTalkWebhookService.process_message
    match hurl : msg.images.image_url with
    | [] => rfl
    | u :: us =>
        match hdl : steps.download with
        | none => rfl
        | some image0 =>
            by_cases hw : msg.session_webhook ≠ "" ∧ 0 < msg.session_webhook_expired_time <;>
              simp [hw, List.filter_append, Action.isSend]
  · by_cases hw : msg.session_webhook ≠ "" ∧ 0 < msg.session_webhook_expired_time <;>
      simp [DingTalkWebhookService.process_message, hw]

/-- C9 (confirmed): for a processed message whose image-reference list is
empty, the pipeline dispatches exactly one reply — the no-image guidance
markdown — and performs no image download and no store write (no
DetectionRecord is created). -/
theorem no_image_single_guidance_reply (msg : DingTalkMessage)
    (steps : StepOutcomes) :
    (let msgn := { msg with images := { msg.images with image_url := [] } }
     (DingTalkWebhookService.process_message msgn steps).filter Action.isSend
       = [Action.sendNoImageReply msg.sender_nick])
    ∧ (let msgn := { msg with images := { msg.images with image_url := [] } }
       (DingTalkWebhookService.process_message msgn steps).filter
         (fun a => match a with
           | Action.downloadImage _ _ => true
           | Action.dbWrite _ => true
           | _ => false)
         = []) := by
  constructor <;>
    · by_cases hw : msg.session_webhook ≠ "" ∧ 0 < msg.session_webhook_expired_time <;>
        simp [DingTalkWebhookService.process_message, hw, Action.isSend]

/-- C8 (confirmed): `get_statistics` computes its counts live over the
stored rows, and its safety rate is 100 when the store holds no detection
and (total - unsafe) / total * 100 otherwise. -/
theorem get_statistics_safety_rate (db : Database) (dayOf : Int → Int)
    (today : Int) :
    ((DatabaseManager.get_statistics db dayOf today).total_detections
        = db.detection_results.length)
    ∧ ((DatabaseManager.get_statistics db dayOf today).unsafe_detections
        = (db.detection_results.filter (fun row => row.is_safe == false)).length)
    ∧ ((DatabaseManager.get_statistics db dayOf today).safety_rate
        = if (DatabaseManager.get_statistics db dayOf today).total_detections = 0
          then 100
          else (((DatabaseManager.get_statistics db dayOf today).total_detections : Rat)
                - ((DatabaseManager.get_statistics db dayOf today).unsafe_detections : Rat))
              / ((DatabaseManager.get_statistics db dayOf today).total_detections : Rat)
              * 100) := by
  refine ⟨rfl, rfl, ?_⟩
  by_cases h : db.detection_results.length = 0 <;>
    simp [DatabaseManager.get_statistics, h, Nat.pos_of_ne_zero]

/-- C7 (code evaluated at the failing input): parsing the empty payload
succeeds with every documented default (empty strings, zero expiry, empty
lists); but as soon as the payload carries a `content` key — whatever the
rest of the payload looks like — parsing fails with the AttributeError of
the missing `Content.from_dict`, while any payload without that key
parses successfully. -/
theorem from_dict_defaults_and_content_bug :
    (DingTalkMessage.from_dict {}
      = Except.ok
        { chatbot_user_id := ""
          conversation_type := ""
          msg_id := ""
          create_at := ""
          conversation_title := ""
          sender_id := ""
          sender_nick := ""
          session_webhook := ""
          session_webhook_expired_time := 0
          content := { content := "" }
          images := { download_code := [], image_url := [], image_size := [] }
          msg_type := ""
          at_users := { dingtalk_id := [], staff_id := [] }
          text := { content := "" } })
    ∧ (DingTalkMessage.from_dict { content := some {} }
        = Except.error "AttributeError: type object Content has no attribute from_dict")
    ∧ (∀ (p : Payload) (c : ContentPayload),
        DingTalkMessage.from_dict { p with content := some c }
          = Except.error "AttributeError: type object Content has no attribute from_dict")
    ∧ (∀ p : Payload,
        (DingTalkMessage.from_dict { p with content := none }).isOk = true) := by
  refine ⟨rfl, rfl, fun p c => rfl, fun p => ?_⟩
  simp [DingTalkMessage.from_dict]
  cases p.images <;> cases p.atUsers <;> cases p.text <;> rfl

/-- The verifier is total (it never throws — the source catches every
exception and returns False) and accepts exactly when the provided sign
equals the base64-encoded keyed digest of timestamp + newline + sign.
Because the signed string embeds the provided signature itself, acceptance
is a fixed-point condition in `sign`; whether a one-byte mutation of an
accepted signature can again be accepted is a question about fixed points
of the concrete HMAC-SHA256 map, outside what equational reasoning on the
embedding settles. -/
theorem verify_signature_accepts_iff
    (hmac_sha256 : String → String → List Nat) (b64encode : List Nat → String)
    (app_secret timestamp sign : String) :
    DingTalkCallbackHandler.verify_signature hmac_sha256 b64encode
        app_secret timestamp sign = true
      ↔ sign = b64encode (hmac_sha256 app_secret (timestamp ++ "\n" ++ sign)) := by
  simp only [DingTalkCallbackHandler.verify_signature, beq_iff_eq]
  exact eq_comm

end Volo8
